import Mathlib

/-
Verification development for the dailyrotate package
(daily_rotate_file.go, daily_rotate_options.go).

The Go code is shallowly embedded as pure Lean functions.  The host
environment (file system and clock) is out of scope of the package and is
modelled explicitly:

* an instant of time is represented by its calendar decomposition
  (year, month, day of year), which is all the package ever consumes
  (time.Time.YearDay, plus the instant passed verbatim to the naming
  callbacks);
* each fallible host call (MkdirAll, OpenFile, Seek, Write, Sync, Close)
  takes its outcome from an explicit environment record, mirroring that
  the host may succeed or fail arbitrarily;
* calls on a nil os.File receiver (Seek/Write/Sync) deterministically
  return os.ErrInvalid without touching the host, exactly as the Go
  standard library does;
* hook callbacks (onOpen, onClose, beforeClose) and host calls are
  recorded in an event trace; hook registration is tracked by a flag
  per hook, since the only observable behaviour of a hook is its
  invocation.
-/

/-- Error values returned by modelled host calls.  `errInvalid` is the
model of os.ErrInvalid, returned by os.File methods on a nil receiver;
`errFS n` stands for an arbitrary host file-system error. -/
inductive GoError where
  | errInvalid : GoError
  | errFS : Nat → GoError
deriving DecidableEq, Repr

/-- Observable events: hook invocations and host file-system calls. -/
inductive Event where
  | beforeClose (path : String) (willRotate : Bool)
  | onClose (path : String) (didRotate : Bool)
  | onOpen (path : String)
  | fsMkdirAll (dir : String)
  | fsOpen (path : String)
  | fsSeekEnd
  | fsClose (path : String)
  | fsSeekCur
  | fsWrite
  | fsSync
deriving DecidableEq, Repr

/-- True exactly for the three hook-invocation events. -/
def Event.isHook : Event → Bool
  | .beforeClose _ _ => true
  | .onClose _ _ => true
  | .onOpen _ => true
  | _ => false

/-- True exactly for a host file-open call. -/
def Event.isFsOpen : Event → Bool
  | .fsOpen _ => true
  | _ => false

/-- True exactly for a host file-close call. -/
def Event.isFsClose : Event → Bool
  | .fsClose _ => true
  | _ => false

/-- Calendar decomposition of an instant in the configured location.
This is what the Go code consumes from time.Now().In(f.Location):
only `yearDay` (time.Time.YearDay, in 1..366 for real instants) enters
the rotation logic; the whole instant is passed to the naming strategy.
`year` and `month` are carried so that properties can quantify over
instants that differ in them. -/
structure GoTime where
  year : Int
  month : Nat
  yearDay : Nat
deriving DecidableEq, Repr

/-- File handles returned by the modelled host open call. -/
abbrev Handle := Nat

/-- Model of the host path helper filepath.Dir (simplified: everything
before the last slash, "." when there is no slash).  No claim in this
development depends on its exact value. -/
def filepathDir (p : String) : String :=
  let parts := p.splitOn "/"
  if parts.length ≤ 1 then "."
  else
    let d := String.intercalate "/" parts.dropLast
    if d = "" then "/" else d

/-- Model of the host time-formatting API time.Format, used when the
package resolves a path from `pathFormat`.  It is a total function of
the layout and the decomposed instant; like Go, an empty layout yields
the empty string.  No claim in this development depends on its internal
behaviour. -/
def goFormat (layout : String) (t : GoTime) : String :=
  if layout = "" then "" else
    layout ++ "@" ++ toString t.year ++ "-" ++ toString t.yearDay

/-- The File struct of daily_rotate_file.go.  `day`, `path`, `file` and
`lastWritePos` mirror the Go fields; `file` is `none` when the Go field
is nil.  The three hook registrations are tracked as booleans (a hook is
observable only through its trace events).  `location` mirrors the
Location field; it is carried as opaque data because the decomposed
instant already incorporates it. -/
structure File where
  pathGenerator : Option (GoTime → String)
  pathFormat : String
  location : String
  day : Nat
  path : String
  file : Option Handle
  noHooks : Bool
  hasOnOpen : Bool
  hasOnClose : Bool
  hasBeforeClose : Bool
  lastWritePos : Int

/-- The zero File value that New starts from (Location set to UTC). -/
def initFile : File :=
  { pathGenerator := none
    pathFormat := ""
    location := "UTC"
    day := 0
    path := ""
    file := none
    noHooks := false
    hasOnOpen := false
    hasOnClose := false
    hasBeforeClose := false
    lastWritePos := 0 }

/-- The option values of daily_rotate_options.go.  Each constructor is
one of the With* functions; `FOpt.apply` is the closure body. -/
inductive FOpt where
  | withOnOpen
  | withOnClose
  | withBeforeClose
  | withPathGenerator (g : GoTime → String)
  | withPathFormat (s : String)
  | withLocation (loc : String)

/-- Application of one option to the File under construction, exactly as
in daily_rotate_options.go. -/
def FOpt.apply : FOpt → File → File
  | .withOnOpen, f => { f with hasOnOpen := true }
  | .withOnClose, f => { f with hasOnClose := true }
  | .withBeforeClose, f => { f with hasBeforeClose := true }
  | .withPathGenerator g, f => { f with pathGenerator := some g }
  | .withPathFormat s, f => { f with pathFormat := s }
  | .withLocation loc, f => { f with location := loc }

/-- Folding a list of options over a File, as the loop in New does. -/
def applyOpts (opts : List FOpt) (f : File) : File :=
  opts.foldl (fun acc o => o.apply acc) f

/-- Result of a state-changing operation: new state, trace, error. -/
structure StepResult where
  st : File
  events : List Event
  err : Option GoError

/-- Result of the write method: new state, trace, reported offset,
bytes written, error. -/
structure WriteResult where
  st : File
  events : List Event
  pos : Int
  n : Nat
  err : Option GoError

/-- Host outcomes for one run of the open method: MkdirAll, OpenFile,
and the seek to end of file. -/
structure OpenEnv where
  mkdirRes : Option GoError
  openRes : Except GoError Handle
  seekEndRes : Option GoError

/-- Host outcomes for one run of reopenIfNeeded: the close of the old
handle and the open of the new one. -/
structure RotateEnv where
  closeRes : Option GoError
  openEnv : OpenEnv

/-- Host outcomes for one run of the write method. `writeRes` is the
pair (bytes written, error) returned by the host write call. -/
structure WriteEnv where
  rot : RotateEnv
  seekCurRes : Except GoError Int
  writeRes : Nat × Option GoError
  syncRes : Option GoError

/-- Host outcomes for one run of New: the rotation of the probe and the
probe-ending close. -/
structure NewEnv where
  rot : RotateEnv
  closeRes : Option GoError

/-- Result of New: the constructed instance (none on failure), trace,
error. -/
structure NewResult where
  inst : Option File
  events : List Event
  err : Option GoError

/-- The close method of File (lowercase close in the Go source): no-op
on a nil handle; otherwise fire beforeClose (hooks permitting), close
the host file, clear the handle, fire onClose only when the host close
succeeded (hooks permitting), zero the day, and return the host error. -/
def File.close (f : File) (didRotate : Bool) (closeRes : Option GoError) : StepResult :=
  match f.file with
  | none => ⟨f, [], none⟩
  | some _ =>
    let es1 : List Event :=
      if !f.noHooks && f.hasBeforeClose then [Event.beforeClose f.path didRotate] else []
    let es2 := es1 ++ [Event.fsClose f.path]
    let es3 :=
      if closeRes.isNone && !f.noHooks && f.hasOnClose then
        es2 ++ [Event.onClose f.path didRotate]
      else es2
    ⟨{ f with file := none, day := 0 }, es3, closeRes⟩

/-- Path resolution inside the open method: the generator wins when it
is set, otherwise the instant is formatted with pathFormat. -/
def File.resolvePath (f : File) (t : GoTime) : String :=
  match f.pathGenerator with
  | some g => g t
  | none => goFormat f.pathFormat t

/-- The open method of File (named openFile here because open is a Lean
keyword).  Note the Go order: path and day are assigned BEFORE the
fallible MkdirAll / OpenFile / Seek calls, so a failure of any of those
leaves path and day already updated.  On OpenFile failure the handle
field is assigned the nil result.  onOpen fires only after a successful
seek, hooks permitting. -/
def File.openFile (f : File) (t : GoTime) (env : OpenEnv) : StepResult :=
  let p := f.resolvePath t
  let f1 := { f with path := p, day := t.yearDay }
  let es1 := [Event.fsMkdirAll (filepathDir p)]
  match env.mkdirRes with
  | some e => ⟨f1, es1, some e⟩
  | none =>
    let es2 := es1 ++ [Event.fsOpen p]
    match env.openRes with
    | Except.error e => ⟨{ f1 with file := none }, es2, some e⟩
    | Except.ok h =>
      let f2 := { f1 with file := some h }
      let es3 := es2 ++ [Event.fsSeekEnd]
      match env.seekEndRes with
      | some e => ⟨f2, es3, some e⟩
      | none =>
        let es4 := if !f2.noHooks && f2.hasOnOpen then es3 ++ [Event.onOpen p] else es3
        ⟨f2, es4, none⟩

/-- The reopenIfNeeded method of File: no-op when the day of year of
now equals the recorded day; otherwise close the old file (didRotate
true), propagating a close failure, then open the new one. -/
def File.reopenIfNeeded (f : File) (t : GoTime) (env : RotateEnv) : StepResult :=
  if t.yearDay = f.day then ⟨f, [], none⟩
  else
    let r := f.close true env.closeRes
    match r.err with
    | some e => ⟨r.st, r.events, some e⟩
    | none =>
      let r2 := r.st.openFile t env.openEnv
      ⟨r2.st, r.events ++ r2.events, r2.err⟩

/-- The write method of File: rotation check first (failure returns
(0, 0, err)); then seek to the current offset recording lastWritePos
(on a nil handle the host returns offset 0 and errInvalid); then the
host write (on error Go returns offset 0 with the partial count); then
an optional sync whose error is returned with the full offset/count. -/
def File.write (f : File) (t : GoTime) (d : Nat) (flush : Bool) (env : WriteEnv) : WriteResult :=
  let r := f.reopenIfNeeded t env.rot
  match r.err with
  | some e => ⟨r.st, r.events, 0, 0, some e⟩
  | none =>
    match r.st.file with
    | none =>
      ⟨{ r.st with lastWritePos := 0 }, r.events, 0, 0, some GoError.errInvalid⟩
    | some _ =>
      let es1 := r.events ++ [Event.fsSeekCur]
      match env.seekCurRes with
      | Except.error e => ⟨{ r.st with lastWritePos := 0 }, es1, 0, 0, some e⟩
      | Except.ok pos =>
        let f1 := { r.st with lastWritePos := pos }
        let es2 := es1 ++ [Event.fsWrite]
        match env.writeRes.2 with
        | some e => ⟨f1, es2, 0, env.writeRes.1, some e⟩
        | none =>
          if flush then
            ⟨f1, es2 ++ [Event.fsSync], pos, env.writeRes.1, env.syncRes⟩
          else
            ⟨f1, es2, pos, env.writeRes.1, none⟩

/-- The exported Close method: close(false) under the lock. -/
def File.Close (f : File) (closeRes : Option GoError) : StepResult :=
  f.close false closeRes

/-- The exported Write method: write(d, false) under the lock, returning
bytes written and error. -/
def File.Write (f : File) (t : GoTime) (d : Nat) (env : WriteEnv) :
    File × List Event × Nat × Option GoError :=
  let r := f.write t d false env
  (r.st, r.events, r.n, r.err)

/-- The exported Write2 method: write(d, flush) under the lock,
returning the path after the write, the offset, bytes written, error. -/
def File.Write2 (f : File) (t : GoTime) (d : Nat) (flush : Bool) (env : WriteEnv) :
    File × List Event × String × Int × Nat × Option GoError :=
  let r := f.write t d flush env
  (r.st, r.events, r.st.path, r.pos, r.n, r.err)

/-- The exported Path method: returns the path field. -/
def File.Path (f : File) : String :=
  f.path

/-- The exported Flush method: f.file.Sync() under the lock.  On a nil
handle the host returns os.ErrInvalid without any sync; otherwise the
sync outcome is the host result.  State is never modified. -/
def File.Flush (f : File) (syncRes : Option GoError) : StepResult :=
  match f.file with
  | none => ⟨f, [], some GoError.errInvalid⟩
  | some _ => ⟨f, [Event.fsSync], syncRes⟩

/-- The New constructor: fold the options over the zero value, suppress
hooks, run the probe (reopenIfNeeded then close(false)), restore hooks,
return the instance; any probe error aborts construction with no
instance.  There is no validation of the naming configuration. -/
def New (opts : List FOpt) (t : GoTime) (env : NewEnv) : NewResult :=
  let f1 := applyOpts opts initFile
  let f2 := { f1 with noHooks := true }
  let r1 := f2.reopenIfNeeded t env.rot
  match r1.err with
  | some e => ⟨none, r1.events, some e⟩
  | none =>
    let r2 := r1.st.close false env.closeRes
    match r2.err with
    | some e => ⟨none, r1.events ++ r2.events, some e⟩
    | none => ⟨some { r2.st with noHooks := false }, r1.events ++ r2.events, none⟩

/-- States reachable through construction and the exported operations,
with arbitrary host outcomes (operations may fail).  The side conditions
`t.yearDay ≠ 0` record the host guarantee that time.Time.YearDay is at
least 1. -/
inductive Reachable : File → Prop where
  | new (opts : List FOpt) (t : GoTime) (env : NewEnv) (f : File)
      (ht : t.yearDay ≠ 0) (hinst : (New opts t env).inst = some f) : Reachable f
  | wr (f : File) (t : GoTime) (d : Nat) (fl : Bool) (env : WriteEnv)
      (ht : t.yearDay ≠ 0) (hr : Reachable f) : Reachable (File.write f t d fl env).st
  | cl (f : File) (e : Option GoError) (hr : Reachable f) : Reachable (File.Close f e).st

/-- States reachable through construction and the exported operations
when no write ever returns an error (explicit closes may still fail).
Side conditions as in `Reachable`. -/
inductive ReachableOk : File → Prop where
  | new (opts : List FOpt) (t : GoTime) (env : NewEnv) (f : File)
      (ht : t.yearDay ≠ 0) (hinst : (New opts t env).inst = some f) : ReachableOk f
  | wr (f : File) (t : GoTime) (d : Nat) (fl : Bool) (env : WriteEnv)
      (ht : t.yearDay ≠ 0) (hok : (File.write f t d fl env).err = none)
      (hr : ReachableOk f) : ReachableOk (File.write f t d fl env).st
  | cl (f : File) (e : Option GoError) (hr : ReachableOk f) : ReachableOk (File.Close f e).st

/-- Options never touch the day field. -/
lemma FOpt.apply_day (o : FOpt) (f : File) : (o.apply f).day = f.day := by
  cases o <;> rfl

/-- Options never touch the handle field. -/
lemma FOpt.apply_file (o : FOpt) (f : File) : (o.apply f).file = f.file := by
  cases o <;> rfl

/-- Folding options never touches the day field. -/
lemma applyOpts_day (opts : List FOpt) (f : File) : (applyOpts opts f).day = f.day := by
  induction opts generalizing f with
  | nil => rfl
  | cons o os ih =>
      have h := ih (o.apply f)
      simp only [applyOpts, List.foldl_cons] at h ⊢
      rw [h, FOpt.apply_day]

/-- Folding options never touches the handle field. -/
lemma applyOpts_file (opts : List FOpt) (f : File) : (applyOpts opts f).file = f.file := by
  induction opts generalizing f with
  | nil => rfl
  | cons o os ih =>
      have h := ih (o.apply f)
      simp only [applyOpts, List.foldl_cons] at h ⊢
      rw [h, FOpt.apply_file]

/-- Closing with no open handle is a complete no-op. -/
lemma close_noop (f : File) (b : Bool) (e : Option GoError) (hf : f.file = none) :
    File.close f b e = ⟨f, [], none⟩ := by
  simp [File.close, hf]

/-- After any close the handle field is clear. -/
lemma close_st_file (f : File) (b : Bool) (e : Option GoError) :
    (File.close f b e).st.file = none := by
  cases hf : f.file <;> simp [File.close, hf]

/-- Setting noHooks does not change how the path is resolved. -/
lemma resolvePath_noHooks (f : File) (t : GoTime) :
    File.resolvePath { f with noHooks := true } t = f.resolvePath t := rfl

/-- Rotating from a closed state on a day other than the recorded one
(as after construction start or an explicit close) reduces to a single
open. -/
lemma reopen_from_closed (f : File) (t : GoTime) (env : RotateEnv)
    (hf : f.file = none) (hne : t.yearDay ≠ f.day) :
    File.reopenIfNeeded f t env = f.openFile t env.openEnv := by
  have h1 : File.close f true env.closeRes = ⟨f, [], none⟩ := close_noop f true env.closeRes hf
  simp [File.reopenIfNeeded, hne, h1]

/-- Open when MkdirAll fails: path and day are already updated, the
handle field is untouched, and the MkdirAll error is returned. -/
lemma openFile_mkdir_fail (f : File) (t : GoTime) (env : OpenEnv) (e : GoError)
    (hmk : env.mkdirRes = some e) :
    f.openFile t env =
      ⟨{ f with path := f.resolvePath t, day := t.yearDay },
       [Event.fsMkdirAll (filepathDir (f.resolvePath t))], some e⟩ := by
  simp [File.openFile, hmk]

/-- Open when OpenFile fails: path and day are already updated, the
handle field is assigned nil, and the OpenFile error is returned. -/
lemma openFile_open_fail (f : File) (t : GoTime) (env : OpenEnv) (e : GoError)
    (hmk : env.mkdirRes = none) (hop : env.openRes = Except.error e) :
    f.openFile t env =
      ⟨{ f with path := f.resolvePath t, day := t.yearDay, file := none },
       [Event.fsMkdirAll (filepathDir (f.resolvePath t)), Event.fsOpen (f.resolvePath t)],
       some e⟩ := by
  simp [File.openFile, hmk, hop]

/-- Open when the seek to end fails: path, day and the fresh handle are
already recorded, and the seek error is returned; onOpen does not fire. -/
lemma openFile_seek_fail (f : File) (t : GoTime) (env : OpenEnv) (e : GoError) (h : Handle)
    (hmk : env.mkdirRes = none) (hop : env.openRes = Except.ok h)
    (hse : env.seekEndRes = some e) :
    f.openFile t env =
      ⟨{ f with path := f.resolvePath t, day := t.yearDay, file := some h },
       [Event.fsMkdirAll (filepathDir (f.resolvePath t)), Event.fsOpen (f.resolvePath t),
        Event.fsSeekEnd], some e⟩ := by
  simp [File.openFile, hmk, hop, hse]

/-- Fully successful open with hooks suppressed: the three host calls
happen, no hook fires, and path, day and handle are recorded. -/
lemma openFile_success_noHooks (f : File) (t : GoTime) (env : OpenEnv) (h : Handle)
    (hmk : env.mkdirRes = none) (hop : env.openRes = Except.ok h)
    (hse : env.seekEndRes = none) (hnh : f.noHooks = true) :
    f.openFile t env =
      ⟨{ f with path := f.resolvePath t, day := t.yearDay, file := some h },
       [Event.fsMkdirAll (filepathDir (f.resolvePath t)), Event.fsOpen (f.resolvePath t),
        Event.fsSeekEnd], none⟩ := by
  simp [File.openFile, hmk, hop, hse, hnh]

/-- Closing an open handle with hooks suppressed: exactly the host close
happens, day and handle are cleared, the host close error is returned. -/
lemma close_open_noHooks (f : File) (b : Bool) (e : Option GoError) (h : Handle)
    (hf : f.file = some h) (hnh : f.noHooks = true) :
    File.close f b e = ⟨{ f with file := none, day := 0 }, [Event.fsClose f.path], e⟩ := by
  simp [File.close, hf, hnh]

/-- A successful New: the instance has a clear handle and day 0, and the
trace is exactly the hook-free probe cycle on the resolved path. -/
lemma New_success_state (opts : List FOpt) (t : GoTime) (env : NewEnv) (f : File)
    (ht : t.yearDay ≠ 0) (hinst : (New opts t env).inst = some f) :
    f.file = none ∧ f.day = 0 ∧
    (New opts t env).events =
      [Event.fsMkdirAll (filepathDir ((applyOpts opts initFile).resolvePath t)),
       Event.fsOpen ((applyOpts opts initFile).resolvePath t),
       Event.fsSeekEnd,
       Event.fsClose ((applyOpts opts initFile).resolvePath t)] := by
  have hday : (applyOpts opts initFile).day = 0 := applyOpts_day opts initFile
  have hfile : (applyOpts opts initFile).file = none := applyOpts_file opts initFile
  have hrot : File.reopenIfNeeded { applyOpts opts initFile with noHooks := true } t env.rot
      = File.openFile { applyOpts opts initFile with noHooks := true } t env.rot.openEnv :=
    reopen_from_closed _ _ _ (by simpa using hfile) (by simpa [hday] using ht)
  cases hmk : env.rot.openEnv.mkdirRes with
  | some e =>
      rw [New.eq_def] at hinst
      simp only [hrot, openFile_mkdir_fail _ _ _ _ hmk] at hinst
      simp at hinst
  | none =>
      cases hop : env.rot.openEnv.openRes with
      | error e =>
          rw [New.eq_def] at hinst
          simp only [hrot, openFile_open_fail _ _ _ _ hmk hop] at hinst
          simp at hinst
      | ok h =>
          cases hse : env.rot.openEnv.seekEndRes with
          | some e =>
              rw [New.eq_def] at hinst
              simp only [hrot, openFile_seek_fail _ _ _ _ _ hmk hop hse] at hinst
              simp at hinst
          | none =>
              have hopen := openFile_success_noHooks
                { applyOpts opts initFile with noHooks := true } t env.rot.openEnv h
                hmk hop hse rfl
              cases hcl : env.closeRes with
              | some e =>
                  have hclose := close_open_noHooks
                    { { applyOpts opts initFile with noHooks := true } with
                        path := File.resolvePath { applyOpts opts initFile with noHooks := true } t,
                        day := t.yearDay, file := some h }
                    false (some e) h rfl rfl
                  rw [New.eq_def] at hinst
                  simp only [hrot, hopen, hcl, hclose] at hinst
                  simp at hinst
              | none =>
                  have hclose := close_open_noHooks
                    { { applyOpts opts initFile with noHooks := true } with
                        path := File.resolvePath { applyOpts opts initFile with noHooks := true } t,
                        day := t.yearDay, file := some h }
                    false none h rfl rfl
                  rw [New.eq_def] at hinst ⊢
                  simp only [hrot, hopen, hcl, hclose] at hinst ⊢
                  simp only [resolvePath_noHooks] at hinst ⊢
                  simp at hinst
                  refine ⟨?_, ?_, ?_⟩
                  · rw [← hinst]
                  · rw [← hinst]
                  · simp

/-- State and error of a successful open, hooks registered or not. -/
lemma openFile_success_st (f : File) (t : GoTime) (env : OpenEnv) (h : Handle)
    (hmk : env.mkdirRes = none) (hop : env.openRes = Except.ok h)
    (hse : env.seekEndRes = none) :
    (f.openFile t env).st =
      { f with path := f.resolvePath t, day := t.yearDay, file := some h } ∧
    (f.openFile t env).err = none := by
  simp [File.openFile, hmk, hop, hse]

/-- State and error of closing an open handle, hooks registered or not. -/
lemma close_open_st (f : File) (b : Bool) (e : Option GoError) (h : Handle)
    (hf : f.file = some h) :
    (File.close f b e).st = { f with file := none, day := 0 } ∧
    (File.close f b e).err = e := by
  simp [File.close, hf]

/-- A rotation check that returns no error either was a same-day no-op,
or ends with the day of now recorded and a fresh open handle. -/
lemma reopen_ok_state (f : File) (t : GoTime) (env : RotateEnv)
    (hok : (File.reopenIfNeeded f t env).err = none) :
    (t.yearDay = f.day ∧ (File.reopenIfNeeded f t env).st = f) ∨
    ((File.reopenIfNeeded f t env).st.day = t.yearDay ∧
     (File.reopenIfNeeded f t env).st.file.isSome = true) := by
  by_cases hd : t.yearDay = f.day
  · left
    exact ⟨hd, by simp [File.reopenIfNeeded, hd]⟩
  · right
    have hred : File.reopenIfNeeded f t env =
        (let r := f.close true env.closeRes
         match r.err with
         | some e => ⟨r.st, r.events, some e⟩
         | none =>
           let r2 := r.st.openFile t env.openEnv
           ⟨r2.st, r.events ++ r2.events, r2.err⟩) := by
      rw [File.reopenIfNeeded.eq_def]
      simp [hd]
    cases hf : f.file with
    | none =>
        rw [hred] at hok ⊢
        simp only [close_noop f true env.closeRes hf] at hok ⊢
        cases hmk : env.openEnv.mkdirRes with
        | some e => simp [openFile_mkdir_fail _ _ _ _ hmk] at hok
        | none =>
            cases hop : env.openEnv.openRes with
            | error e => simp [openFile_open_fail _ _ _ _ hmk hop] at hok
            | ok h =>
                cases hse : env.openEnv.seekEndRes with
                | some e => simp [openFile_seek_fail _ _ _ _ _ hmk hop hse] at hok
                | none =>
                    have h1 := openFile_success_st f t env.openEnv h hmk hop hse
                    simp [h1.1, h1.2]
    | some h0 =>
        have hcl := close_open_st f true env.closeRes h0 hf
        cases hcr : env.closeRes with
        | some e =>
            rw [hred] at hok
            simp [hcl.2.trans hcr] at hok
        | none =>
            have hclErr : (File.close f true env.closeRes).err = none := hcl.2.trans hcr
            rw [hred] at hok ⊢
            simp only [hcl.1, hclErr] at hok ⊢
            cases hmk : env.openEnv.mkdirRes with
            | some e => simp [openFile_mkdir_fail _ _ _ _ hmk] at hok
            | none =>
                cases hop : env.openEnv.openRes with
                | error e => simp [openFile_open_fail _ _ _ _ hmk hop] at hok
                | ok h =>
                    cases hse : env.openEnv.seekEndRes with
                    | some e => simp [openFile_seek_fail _ _ _ _ _ hmk hop hse] at hok
                    | none =>
                        have h1 := openFile_success_st
                          { f with file := none, day := 0 } t env.openEnv h hmk hop hse
                        simp [h1.1, h1.2]

/-- The write method only ever changes lastWritePos beyond what the
rotation check changed, and a write that returns no error had a
successful rotation check ending with an open handle. -/
lemma write_st_fields (f : File) (t : GoTime) (d : Nat) (fl : Bool) (env : WriteEnv) :
    (File.write f t d fl env).st.day = (File.reopenIfNeeded f t env.rot).st.day ∧
    (File.write f t d fl env).st.file = (File.reopenIfNeeded f t env.rot).st.file ∧
    (File.write f t d fl env).st.path = (File.reopenIfNeeded f t env.rot).st.path ∧
    ((File.write f t d fl env).err = none →
      (File.reopenIfNeeded f t env.rot).err = none ∧
      (File.reopenIfNeeded f t env.rot).st.file.isSome = true) := by
  rw [File.write.eq_def]
  cases hre : (File.reopenIfNeeded f t env.rot).err with
  | some e => simp [hre]
  | none =>
      simp only [hre]
      cases hsf : (File.reopenIfNeeded f t env.rot).st.file with
      | none => simp [hsf]
      | some h =>
          simp only [hsf]
          cases hsc : env.seekCurRes with
          | error e => simp [hsf]
          | ok pos =>
              cases hw : env.writeRes.2 with
              | some e => simp [hsf]
              | none =>
                  cases fl <;> simp [hsf]

/-- A write that returns no error ends with a nonzero recorded day and
an open handle. -/
lemma write_ok_day_file (f : File) (t : GoTime) (d : Nat) (fl : Bool) (env : WriteEnv)
    (ht : t.yearDay ≠ 0) (hok : (File.write f t d fl env).err = none) :
    (File.write f t d fl env).st.day ≠ 0 ∧
    (File.write f t d fl env).st.file.isSome = true := by
  obtain ⟨hday, hfile, hpath, himp⟩ := write_st_fields f t d fl env
  obtain ⟨hre, hsome⟩ := himp hok
  rcases reopen_ok_state f t env.rot hre with ⟨heq, hst⟩ | ⟨hd2, hf2⟩
  · refine ⟨?_, ?_⟩
    · rw [hday, hst, ← heq]; exact ht
    · rw [hfile]; exact hsome
  · exact ⟨by rw [hday, hd2]; exact ht, by rw [hfile]; exact hf2⟩

/-- Concrete instant fixtures for witness and counterexample theorems. -/
def tJan5 : GoTime := ⟨2024, 1, 5⟩

/-- The next calendar day after `tJan5`. -/
def tJan6 : GoTime := ⟨2024, 1, 6⟩

/-- An all-success open environment returning handle 1. -/
def envOpenOk : OpenEnv := ⟨none, Except.ok 1, none⟩

/-- An all-success construction environment. -/
def envNewOk : NewEnv := ⟨⟨none, envOpenOk⟩, none⟩

/-- The instance built by a successful New with path format "log". -/
def fLog : File := ((New [FOpt.withPathFormat "log"] tJan5 envNewOk).inst).getD initFile

/-- A write environment whose MkdirAll call fails with host error 7. -/
def envMkdirFail : WriteEnv :=
  ⟨⟨none, ⟨some (GoError.errFS 7), Except.ok 1, none⟩⟩, Except.ok 0, (0, none), none⟩

/-- The state after a next-day write whose rotation fails at MkdirAll. -/
def fBad : File := (File.write fLog tJan6 0 false envMkdirFail).st

/-- C2 (amended): in every state reachable by construction, writes,
and closes in which no write returns an error, the recorded day is
nonzero exactly when a handle is open.  (The original claim, over all
reachable states including failed writes, is refuted by
C2_counterexample: a rotation whose MkdirAll or OpenFile fails leaves
the day set with no handle open.) -/
theorem C2_day_iff_handle (f : File) (h : ReachableOk f) :
    f.day ≠ 0 ↔ f.file.isSome = true := by
  induction h with
  | new opts t env f ht hinst =>
      obtain ⟨h1, h2, _⟩ := New_success_state opts t env f ht hinst
      simp [h1, h2]
  | wr f t d fl env ht hok hr ih =>
      obtain ⟨h1, h2⟩ := write_ok_day_file f t d fl env ht hok
      simp [h1, h2]
  | cl f e hr ih =>
      cases hf : f.file with
      | none =>
          have hno := close_noop f false e hf
          simp only [File.Close, hno]
          exact ih
      | some h0 =>
          have hcl := close_open_st f false e h0 hf
          simp only [File.Close, hcl.1]
          simp

/-- C2 (counterexample to the original claim): the state fBad is
reachable (successful construction, then a next-day write whose
MkdirAll fails), yet its day is 6 while no handle is open. -/
theorem C2_counterexample :
    Reachable fBad ∧ ¬ (fBad.day ≠ 0 ↔ fBad.file.isSome = true) := by
  constructor
  · exact Reachable.wr fLog tJan6 0 false envMkdirFail (by decide)
      (Reachable.new [FOpt.withPathFormat "log"] tJan5 envNewOk fLog (by decide) rfl)
  · decide

/-- C2 (witness): the amended invariant evaluated at the concretely
constructed instance fLog. -/
theorem C2_witness : fLog.day ≠ 0 ↔ fLog.file.isSome = true :=
  C2_day_iff_handle fLog
    (ReachableOk.new [FOpt.withPathFormat "log"] tJan5 envNewOk fLog (by decide) rfl)

/-- The open method records the day of year of now, whatever the host
outcomes are. -/
lemma openFile_st_day (f : File) (t : GoTime) (env : OpenEnv) :
    (f.openFile t env).st.day = t.yearDay := by
  rw [File.openFile.eq_def]
  cases hmk : env.mkdirRes with
  | some e => simp
  | none =>
      cases hop : env.openRes with
      | error e => simp
      | ok h =>
          cases hse : env.seekEndRes with
          | some e => simp
          | none => simp

/-- Closing does not change how paths resolve. -/
lemma close_st_resolvePath (f : File) (b : Bool) (e : Option GoError) (t : GoTime) :
    File.resolvePath (File.close f b e).st t = f.resolvePath t := by
  cases hf : f.file <;> cases hg : f.pathGenerator <;>
    simp [File.close, File.resolvePath, hf, hg]

/-- A boundary-crossing rotation whose close step succeeds is the close
followed by the open of the post-close state. -/
lemma reopen_rotate (f : File) (t : GoTime) (env : RotateEnv)
    (hrot : t.yearDay ≠ f.day)
    (hclose : (File.close f true env.closeRes).err = none) :
    File.reopenIfNeeded f t env =
      ⟨((File.close f true env.closeRes).st.openFile t env.openEnv).st,
       (File.close f true env.closeRes).events ++
         ((File.close f true env.closeRes).st.openFile t env.openEnv).events,
       ((File.close f true env.closeRes).st.openFile t env.openEnv).err⟩ := by
  rw [File.reopenIfNeeded.eq_def, if_neg hrot]
  simp only [hclose]

/-- After a boundary-crossing write whose close step succeeded, the
recorded day is the day of year of the write instant, whatever the
remaining host outcomes were (open assigns it before its fallible
calls). -/
lemma write_rotated_day (f : File) (t : GoTime) (d : Nat) (fl : Bool) (env : WriteEnv)
    (hrot : t.yearDay ≠ f.day)
    (hclose : (File.close f true env.rot.closeRes).err = none) :
    (File.write f t d fl env).st.day = t.yearDay := by
  have h := (write_st_fields f t d fl env).1
  rw [h, reopen_rotate f t env.rot hrot hclose]
  exact openFile_st_day _ _ _

/-- C1 (amended): for every write that crosses a rotation boundary
(day of year differs from the recorded one, from a closed state or an
open state whose close step succeeds) and whose open step then fails
at MkdirAll, OpenFile, or the seek to end, the write returns that same
error with zero bytes written; however the recorded day and path are
already updated to the new values before the failing call, the handle
is absent after a MkdirAll or OpenFile failure but the fresh handle is
already recorded after a seek failure, and a later same-day write does
not re-run the rotation from scratch: its rotation check is a complete
no-op, and with the handle absent that write fails at the nil-handle
seek with the invalid-handle error.  (The original claim, that the
state is not updated, the bucket stays unset and the path unchanged,
is refuted by C1_counterexample.) -/
theorem C1_write_rotation_failure (f : File) (t : GoTime) (d : Nat) (fl : Bool)
    (env : WriteEnv) (e : GoError)
    (hrot : t.yearDay ≠ f.day)
    (hclose : (File.close f true env.rot.closeRes).err = none) :
    (env.rot.openEnv.mkdirRes = some e →
      File.write f t d fl env =
        ⟨{ (File.close f true env.rot.closeRes).st with
             path := f.resolvePath t, day := t.yearDay },
         (File.close f true env.rot.closeRes).events ++
           [Event.fsMkdirAll (filepathDir (f.resolvePath t))], 0, 0, some e⟩) ∧
    (env.rot.openEnv.mkdirRes = none → env.rot.openEnv.openRes = Except.error e →
      File.write f t d fl env =
        ⟨{ (File.close f true env.rot.closeRes).st with
             path := f.resolvePath t, day := t.yearDay, file := none },
         (File.close f true env.rot.closeRes).events ++
           [Event.fsMkdirAll (filepathDir (f.resolvePath t)),
            Event.fsOpen (f.resolvePath t)], 0, 0, some e⟩) ∧
    (∀ h, env.rot.openEnv.mkdirRes = none → env.rot.openEnv.openRes = Except.ok h →
      env.rot.openEnv.seekEndRes = some e →
      File.write f t d fl env =
        ⟨{ (File.close f true env.rot.closeRes).st with
             path := f.resolvePath t, day := t.yearDay, file := some h },
         (File.close f true env.rot.closeRes).events ++
           [Event.fsMkdirAll (filepathDir (f.resolvePath t)),
            Event.fsOpen (f.resolvePath t), Event.fsSeekEnd], 0, 0, some e⟩) ∧
    (∀ (t2 : GoTime) (env2 : RotateEnv), t2.yearDay = t.yearDay →
      File.reopenIfNeeded (File.write f t d fl env).st t2 env2 =
        ⟨(File.write f t d fl env).st, [], none⟩) ∧
    (∀ (t2 : GoTime) (d2 : Nat) (fl2 : Bool) (env2 : WriteEnv), t2.yearDay = t.yearDay →
      (env.rot.openEnv.mkdirRes = some e ∨
       (env.rot.openEnv.mkdirRes = none ∧ env.rot.openEnv.openRes = Except.error e)) →
      File.write (File.write f t d fl env).st t2 d2 fl2 env2 =
        ⟨{ (File.write f t d fl env).st with lastWritePos := 0 }, [], 0, 0,
         some GoError.errInvalid⟩) := by
  have hre := reopen_rotate f t env.rot hrot hclose
  have hrp := close_st_resolvePath f true env.rot.closeRes t
  refine ⟨?_, ?_, ?_, ?_, ?_⟩
  · intro hmk
    rw [File.write.eq_def, hre,
      openFile_mkdir_fail ((File.close f true env.rot.closeRes).st) t env.rot.openEnv e hmk,
      hrp]
  · intro hmk hop
    rw [File.write.eq_def, hre,
      openFile_open_fail ((File.close f true env.rot.closeRes).st) t env.rot.openEnv e
        hmk hop, hrp]
  · intro h hmk hop hse
    rw [File.write.eq_def, hre,
      openFile_seek_fail ((File.close f true env.rot.closeRes).st) t env.rot.openEnv e h
        hmk hop hse, hrp]
  · intro t2 env2 ht2
    have hday := write_rotated_day f t d fl env hrot hclose
    have hsame : t2.yearDay = (File.write f t d fl env).st.day := by rw [hday, ht2]
    simp [File.reopenIfNeeded, hsame]
  · intro t2 d2 fl2 env2 ht2 hcase
    have hday := write_rotated_day f t d fl env hrot hclose
    have hfl := (write_st_fields f t d fl env).2.1
    have hfile1 : (File.write f t d fl env).st.file = none := by
      rw [hfl, hre]
      rcases hcase with hmk | ⟨hmk, hop⟩
      · rw [openFile_mkdir_fail ((File.close f true env.rot.closeRes).st) t
          env.rot.openEnv e hmk]
        exact close_st_file f true env.rot.closeRes
      · rw [openFile_open_fail ((File.close f true env.rot.closeRes).st) t
          env.rot.openEnv e hmk hop]
    have hsame : t2.yearDay = (File.write f t d fl env).st.day := by rw [hday, ht2]
    have hre2 : File.reopenIfNeeded (File.write f t d fl env).st t2 env2.rot =
        ⟨(File.write f t d fl env).st, [], none⟩ := by
      simp [File.reopenIfNeeded, hsame]
    rw [File.write.eq_def, hre2]
    simp only [hfile1]

/-- C1 (counterexample to the original claim): after a successful
construction, a next-day write whose MkdirAll fails returns the error
with zero bytes, yet the recorded day is updated to 6 (not unset) and
the recorded path is changed. -/
theorem C1_counterexample :
    (File.write fLog tJan6 3 false envMkdirFail).err = some (GoError.errFS 7) ∧
    (File.write fLog tJan6 3 false envMkdirFail).n = 0 ∧
    (File.write fLog tJan6 3 false envMkdirFail).st.day = 6 ∧
    ¬ (File.write fLog tJan6 3 false envMkdirFail).st.day = 0 ∧
    (File.write fLog tJan6 3 false envMkdirFail).st.file = none ∧
    (File.write fLog tJan6 3 false envMkdirFail).st.path ≠ fLog.path := by
  refine ⟨rfl, rfl, rfl, by decide, rfl, by decide⟩

/-- An all-success rotation environment used by the C1 witness. -/
def envRotOkC1 : RotateEnv := ⟨none, ⟨none, Except.ok 3, none⟩⟩

/-- An all-success write environment used by the C1 witness. -/
def envWriteOkC1 : WriteEnv := ⟨envRotOkC1, Except.ok 0, (2, none), none⟩

/-- C1 (witness): the amended statement evaluated at the concrete
instance fLog with a failing MkdirAll on the next day, including the
no-retry clause for a later same-day write (whose own host environment
would succeed): that write performs no rotation and fails on the nil
handle. -/
theorem C1_witness :
    File.write fLog tJan6 3 false envMkdirFail =
      ⟨{ (File.close fLog true envMkdirFail.rot.closeRes).st with
           path := fLog.resolvePath tJan6, day := tJan6.yearDay },
       (File.close fLog true envMkdirFail.rot.closeRes).events ++
         [Event.fsMkdirAll (filepathDir (fLog.resolvePath tJan6))], 0, 0,
       some (GoError.errFS 7)⟩ ∧
    File.reopenIfNeeded (File.write fLog tJan6 3 false envMkdirFail).st tJan6
        envRotOkC1 =
      ⟨(File.write fLog tJan6 3 false envMkdirFail).st, [], none⟩ ∧
    File.write (File.write fLog tJan6 3 false envMkdirFail).st tJan6 2 false
        envWriteOkC1 =
      ⟨{ (File.write fLog tJan6 3 false envMkdirFail).st with lastWritePos := 0 },
       [], 0, 0, some GoError.errInvalid⟩ := by
  have h := C1_write_rotation_failure fLog tJan6 3 false envMkdirFail (GoError.errFS 7)
    (by decide) rfl
  exact ⟨h.1 rfl, h.2.2.2.1 tJan6 envRotOkC1 rfl,
    h.2.2.2.2 tJan6 2 false envWriteOkC1 rfl (Or.inl rfl)⟩

/-- A concrete path generator used by the C3 theorems. -/
def genX : GoTime → String := fun t => "gen-" ++ toString t.yearDay

/-- C3 (counterexample to the original claim): constructing with BOTH a
path format and a path generator configured does not fail: with a
successful probe, New returns no error and an instance is created. -/
theorem C3_counterexample :
    (New [FOpt.withPathGenerator genX, FOpt.withPathFormat "fmt"] tJan5 envNewOk).err
      = none ∧
    ((New [FOpt.withPathGenerator genX, FOpt.withPathFormat "fmt"] tJan5 envNewOk).inst).isSome
      = true :=
  ⟨rfl, rfl⟩

/-- C3 (amended): the constructor performs no validation of the naming
configuration (no ConfigurationError exists in the code).  With both
strategies configured the generator takes precedence: whenever the
probe succeeds, construction succeeds and the instance records the
generator path.  With neither configured, the probe path resolves to
the empty string (the empty pattern formats to the empty string);
construction fails exactly when the host rejects that probe,
surfacing the host error (here stated for an OpenFile rejection, the
way a real host rejects the empty path), and construction even
succeeds should the host accept it — so the failure is never a
configuration error. -/
theorem C3_no_config_validation (g : GoTime → String) (s : String) (t : GoTime)
    (env : NewEnv) (h : Handle) (ht : t.yearDay ≠ 0)
    (hmk : env.rot.openEnv.mkdirRes = none) (hop : env.rot.openEnv.openRes = Except.ok h)
    (hse : env.rot.openEnv.seekEndRes = none) (hcl : env.closeRes = none) :
    (New [FOpt.withPathGenerator g, FOpt.withPathFormat s] t env).err = none ∧
    Option.map File.path
      (New [FOpt.withPathGenerator g, FOpt.withPathFormat s] t env).inst = some (g t) ∧
    File.resolvePath initFile t = "" ∧
    (∀ (env2 : NewEnv) (e2 : GoError),
      env2.rot.openEnv.mkdirRes = none → env2.rot.openEnv.openRes = Except.error e2 →
      (New [] t env2).inst = none ∧ (New [] t env2).err = some e2 ∧
      (New [] t env2).events =
        [Event.fsMkdirAll (filepathDir (File.resolvePath initFile t)),
         Event.fsOpen (File.resolvePath initFile t)]) ∧
    (∀ (env2 : NewEnv) (h2 : Handle),
      env2.rot.openEnv.mkdirRes = none → env2.rot.openEnv.openRes = Except.ok h2 →
      env2.rot.openEnv.seekEndRes = none → env2.closeRes = none →
      (New [] t env2).err = none ∧
      Option.map File.path (New [] t env2).inst = some "") := by
  have hrot := reopen_from_closed
    { applyOpts [FOpt.withPathGenerator g, FOpt.withPathFormat s] initFile with
        noHooks := true } t env.rot rfl (by simpa [applyOpts, FOpt.apply, initFile] using ht)
  have hopen := openFile_success_noHooks
    { applyOpts [FOpt.withPathGenerator g, FOpt.withPathFormat s] initFile with
        noHooks := true } t env.rot.openEnv h hmk hop hse rfl
  have hclose := close_open_noHooks
    { { applyOpts [FOpt.withPathGenerator g, FOpt.withPathFormat s] initFile with
          noHooks := true } with
        path := File.resolvePath
          { applyOpts [FOpt.withPathGenerator g, FOpt.withPathFormat s] initFile with
              noHooks := true } t,
        day := t.yearDay, file := some h }
    false none h rfl rfl
  refine ⟨?_, ?_, rfl, ?_, ?_⟩
  · rw [New.eq_def]
    simp only [hrot, hopen, hcl, hclose]
  · rw [New.eq_def]
    simp only [hrot, hopen, hcl, hclose]
    rfl
  · intro env2 e2 hmk2 hop2
    have hrot2 := reopen_from_closed
      { applyOpts ([] : List FOpt) initFile with noHooks := true } t env2.rot rfl
      (by simpa [applyOpts, initFile] using ht)
    rw [New.eq_def]
    simp only [hrot2, openFile_open_fail _ _ _ _ hmk2 hop2, resolvePath_noHooks]
    exact ⟨trivial, trivial, rfl⟩
  · intro env2 h2 hmk2 hop2 hse2 hcl2
    have hrot2 := reopen_from_closed
      { applyOpts ([] : List FOpt) initFile with noHooks := true } t env2.rot rfl
      (by simpa [applyOpts, initFile] using ht)
    have hopen2 := openFile_success_noHooks
      { applyOpts ([] : List FOpt) initFile with noHooks := true } t env2.rot.openEnv h2
      hmk2 hop2 hse2 rfl
    have hclose2 := close_open_noHooks
      { { applyOpts ([] : List FOpt) initFile with noHooks := true } with
          path := File.resolvePath
            { applyOpts ([] : List FOpt) initFile with noHooks := true } t,
          day := t.yearDay, file := some h2 }
      false none h2 rfl rfl
    rw [New.eq_def]
    simp only [hrot2, hopen2, hcl2, hclose2]
    exact ⟨trivial, rfl⟩

/-- A construction environment whose probe OpenFile fails with host
error 9 (used by the C3 witness for the neither-configured case). -/
def envNewFail : NewEnv := ⟨⟨none, ⟨none, Except.error (GoError.errFS 9), none⟩⟩, none⟩

/-- C3 (witness): the amended statement evaluated concretely: a
both-configured construction succeeds with the generator path, and a
neither-configured construction whose probe open is rejected by the
host fails with that host error and no instance. -/
theorem C3_witness :
    (New [FOpt.withPathGenerator genX, FOpt.withPathFormat "zz"] tJan6 envNewOk).err
      = none ∧
    Option.map File.path
      (New [FOpt.withPathGenerator genX, FOpt.withPathFormat "zz"] tJan6 envNewOk).inst
      = some (genX tJan6) ∧
    File.resolvePath initFile tJan6 = "" ∧
    (New [] tJan6 envNewFail).inst = none ∧
    (New [] tJan6 envNewFail).err = some (GoError.errFS 9) := by
  have h := C3_no_config_validation genX "zz" tJan6 envNewOk 1 (by decide) rfl rfl rfl rfl
  refine ⟨h.1, h.2.1, h.2.2.1, ?_, ?_⟩
  · exact (h.2.2.2.1 envNewFail (GoError.errFS 9) rfl rfl).1
  · exact (h.2.2.2.1 envNewFail (GoError.errFS 9) rfl rfl).2.1

/-- Closing an open handle with hooks enabled and both close hooks
registered: beforeClose fires, the host close runs, and onClose fires
exactly when the host close succeeded. -/
lemma close_open_hooks (f : File) (b : Bool) (e : Option GoError) (h : Handle)
    (hf : f.file = some h) (hnh : f.noHooks = false) (hbc : f.hasBeforeClose = true)
    (hoc : f.hasOnClose = true) :
    File.close f b e =
      ⟨{ f with file := none, day := 0 },
       Event.beforeClose f.path b :: Event.fsClose f.path ::
         (if e.isNone then [Event.onClose f.path b] else []), e⟩ := by
  cases e <;> simp [File.close, hf, hnh, hbc, hoc]

/-- Fully successful open with hooks enabled and onOpen registered:
the three host calls happen and onOpen fires last. -/
lemma openFile_success_hooks (f : File) (t : GoTime) (env : OpenEnv) (h : Handle)
    (hmk : env.mkdirRes = none) (hop : env.openRes = Except.ok h)
    (hse : env.seekEndRes = none) (hnh : f.noHooks = false) (hoo : f.hasOnOpen = true) :
    f.openFile t env =
      ⟨{ f with path := f.resolvePath t, day := t.yearDay, file := some h },
       [Event.fsMkdirAll (filepathDir (f.resolvePath t)), Event.fsOpen (f.resolvePath t),
        Event.fsSeekEnd, Event.onOpen (f.resolvePath t)], none⟩ := by
  simp [File.openFile, hmk, hop, hse, hnh, hoo]

/-- Clearing the handle and day does not change how paths resolve. -/
lemma resolvePath_cleared (f : File) (t : GoTime) :
    File.resolvePath { f with file := none, day := 0 } t = f.resolvePath t := rfl

/-- C4: a write whose rotation check finds a different day with a file
open performs exactly one host close of the old path and one host open
of the new path, and the registered hooks fire in the order
beforeClose(oldPath, true), onClose(oldPath, true), onOpen(newPath);
when the underlying close fails, onClose does not fire (and the open is
not attempted: the trace ends at the host close and the close error is
returned). -/
theorem C4_rotation_hook_order (f : File) (t : GoTime) (env : RotateEnv) (h0 : Handle)
    (hfile : f.file = some h0) (hnh : f.noHooks = false)
    (hbc : f.hasBeforeClose = true) (hoc : f.hasOnClose = true) (hoo : f.hasOnOpen = true)
    (hrot : t.yearDay ≠ f.day) :
    (∀ h1, env.closeRes = none → env.openEnv.mkdirRes = none →
      env.openEnv.openRes = Except.ok h1 → env.openEnv.seekEndRes = none →
      (File.reopenIfNeeded f t env).events =
        [Event.beforeClose f.path true, Event.fsClose f.path, Event.onClose f.path true,
         Event.fsMkdirAll (filepathDir (f.resolvePath t)), Event.fsOpen (f.resolvePath t),
         Event.fsSeekEnd, Event.onOpen (f.resolvePath t)] ∧
      ((File.reopenIfNeeded f t env).events).countP (fun ev => Event.isFsClose ev) = 1 ∧
      ((File.reopenIfNeeded f t env).events).countP (fun ev => Event.isFsOpen ev) = 1) ∧
    (∀ e, env.closeRes = some e →
      (File.reopenIfNeeded f t env).events =
        [Event.beforeClose f.path true, Event.fsClose f.path] ∧
      (File.reopenIfNeeded f t env).err = some e) := by
  constructor
  · intro h1 hcr hmk hop hse
    have hclose := close_open_hooks f true none h0 hfile hnh hbc hoc
    have hopen := openFile_success_hooks { f with file := none, day := 0 } t env.openEnv h1
      hmk hop hse (by simpa using hnh) (by simpa using hoo)
    have hev : (File.reopenIfNeeded f t env).events =
        [Event.beforeClose f.path true, Event.fsClose f.path, Event.onClose f.path true,
         Event.fsMkdirAll (filepathDir (f.resolvePath t)), Event.fsOpen (f.resolvePath t),
         Event.fsSeekEnd, Event.onOpen (f.resolvePath t)] := by
      rw [File.reopenIfNeeded.eq_def]
      simp only [hrot, if_false, hcr, hclose, hopen, resolvePath_cleared]
      simp [hrot]
    refine ⟨hev, ?_, ?_⟩
    · rw [hev]; rfl
    · rw [hev]; rfl
  · intro e hcr
    have hclose := close_open_hooks f true (some e) h0 hfile hnh hbc hoc
    rw [File.reopenIfNeeded.eq_def]
    simp only [hcr, hclose]
    simp [hrot]

/-- An instance as if opened on day 5 at path "old", with all hooks
registered (used by the C4 witness). -/
def fRot : File :=
  { initFile with
    pathFormat := "log"
    day := 5
    path := "old"
    file := some 1
    hasOnOpen := true
    hasOnClose := true
    hasBeforeClose := true }

/-- An all-success rotation environment returning handle 2. -/
def envRotOk : RotateEnv := ⟨none, ⟨none, Except.ok 2, none⟩⟩

/-- C4 (witness): the hook order evaluated at a concrete open instance
crossing the boundary from day 5 to day 6. -/
theorem C4_witness :
    (File.reopenIfNeeded fRot tJan6 envRotOk).events =
      [Event.beforeClose fRot.path true, Event.fsClose fRot.path,
       Event.onClose fRot.path true,
       Event.fsMkdirAll (filepathDir (fRot.resolvePath tJan6)),
       Event.fsOpen (fRot.resolvePath tJan6), Event.fsSeekEnd,
       Event.onOpen (fRot.resolvePath tJan6)] :=
  ((C4_rotation_hook_order fRot tJan6 envRotOk 1 rfl rfl rfl rfl rfl (by decide)).1
    2 rfl rfl rfl rfl).1

/-- C5: every successful construction performs exactly one hook-free
probe cycle — MkdirAll on the parent of the resolved path, OpenFile,
seek to end, close — with no hook event in the trace, and the returned
instance has no file open (and day 0). -/
theorem C5_probe (opts : List FOpt) (t : GoTime) (env : NewEnv) (f : File)
    (ht : t.yearDay ≠ 0) (hinst : (New opts t env).inst = some f) :
    f.file = none ∧ f.day = 0 ∧
    (New opts t env).events =
      [Event.fsMkdirAll (filepathDir ((applyOpts opts initFile).resolvePath t)),
       Event.fsOpen ((applyOpts opts initFile).resolvePath t),
       Event.fsSeekEnd,
       Event.fsClose ((applyOpts opts initFile).resolvePath t)] ∧
    ((New opts t env).events).all (fun ev => !ev.isHook) = true := by
  obtain ⟨h1, h2, h3⟩ := New_success_state opts t env f ht hinst
  refine ⟨h1, h2, h3, ?_⟩
  rw [h3]
  rfl

/-- The option list used by the C5 witness: a path format plus all
three hooks registered, so the hook-freedom of the probe is not
vacuous. -/
def optsC5 : List FOpt :=
  [FOpt.withPathFormat "log", FOpt.withOnOpen, FOpt.withOnClose, FOpt.withBeforeClose]

/-- The instance built by a successful New from optsC5. -/
def fC5 : File := ((New optsC5 tJan5 envNewOk).inst).getD initFile

/-- C5 (witness): the probe property evaluated at the concrete
construction that produced fC5. -/
theorem C5_witness :
    fC5.file = none ∧
    (New optsC5 tJan5 envNewOk).events =
      [Event.fsMkdirAll (filepathDir ((applyOpts optsC5 initFile).resolvePath tJan5)),
       Event.fsOpen ((applyOpts optsC5 initFile).resolvePath tJan5),
       Event.fsSeekEnd,
       Event.fsClose ((applyOpts optsC5 initFile).resolvePath tJan5)] := by
  have h := C5_probe optsC5 tJan5 envNewOk fC5 (by decide) rfl
  exact ⟨h.1, h.2.2.1⟩

/-- C6: explicit Close on an instance with no open file is a complete
no-op — same state, no events, no error — and therefore Close after
Close leaves the same state as a single Close. -/
theorem C6_close_idempotent :
    (∀ (f : File) (e : Option GoError), f.file = none →
      File.Close f e = ⟨f, [], none⟩) ∧
    (∀ (f : File) (e1 e2 : Option GoError),
      (File.Close (File.Close f e1).st e2).st = (File.Close f e1).st) := by
  constructor
  · intro f e hf
    exact close_noop f false e hf
  · intro f e1 e2
    have hf : (File.Close f e1).st.file = none := close_st_file f false e1
    have hno := close_noop (File.Close f e1).st false e2 hf
    show (File.close (File.Close f e1).st false e2).st = (File.Close f e1).st
    rw [hno]

/-- C6 (witness): Close on the freshly constructed (closed) instance. -/
theorem C6_witness : File.Close initFile none = ⟨initFile, [], none⟩ :=
  C6_close_idempotent.1 initFile none rfl

/-- C7: Flush on an instance with no open file returns the
precondition-failure error (the host invalid-handle error os.ErrInvalid
from the nil receiver) and performs no sync: state unchanged, no host
sync call in the trace. -/
theorem C7_flush_no_file (f : File) (e : Option GoError) (hf : f.file = none) :
    File.Flush f e = ⟨f, [], some GoError.errInvalid⟩ := by
  simp [File.Flush, hf]

/-- C7 (witness): Flush on the zero instance, with a host environment
that would have reported a different error had a sync been attempted. -/
theorem C7_witness :
    File.Flush initFile (some (GoError.errFS 3)) =
      ⟨initFile, [], some GoError.errInvalid⟩ :=
  C7_flush_no_file initFile (some (GoError.errFS 3)) rfl

/-- The open method records exactly the resolved path, whatever the
host outcomes. -/
lemma openFile_st_path (f : File) (t : GoTime) (env : OpenEnv) :
    (f.openFile t env).st.path = f.resolvePath t := by
  rw [File.openFile.eq_def]
  cases hmk : env.mkdirRes with
  | some e => simp
  | none =>
      cases hop : env.openRes with
      | error e => simp
      | ok h =>
          cases hse : env.seekEndRes with
          | some e => simp
          | none => simp

/-- C8: when a path generator is configured, every path resolution
calls the generator: the resolved path is the generator output, for
every value of the format string, and every open records that path. -/
theorem C8_generator_precedence (f : File) (t : GoTime) (env : OpenEnv)
    (g : GoTime → String) (hg : f.pathGenerator = some g) :
    File.resolvePath f t = g t ∧
    (∀ s, File.resolvePath { f with pathFormat := s } t = g t) ∧
    (f.openFile t env).st.path = g t := by
  have h1 : File.resolvePath f t = g t := by simp [File.resolvePath, hg]
  refine ⟨h1, ?_, ?_⟩
  · intro s
    simp [File.resolvePath, hg]
  · rw [openFile_st_path]
    exact h1

/-- A concrete path generator used by the C8 witness. -/
def genA : GoTime → String := fun t => "a-" ++ toString t.year

/-- An instance with BOTH naming strategies configured (used by the C8
witness). -/
def fBoth : File :=
  { initFile with
    pathGenerator := some genA
    pathFormat := "ignored-format" }

/-- C8 (witness): path resolution on an instance carrying both a
generator and a format string uses the generator. -/
theorem C8_witness :
    File.resolvePath fBoth tJan5 = genA tJan5 ∧
    (fBoth.openFile tJan5 envOpenOk).st.path = genA tJan5 := by
  have h := C8_generator_precedence fBoth tJan5 envOpenOk genA rfl
  exact ⟨h.1, h.2.2⟩

/-- C9: the rotation bucket is the day of year only: a write whose
instant has the same day of year as the recorded bucket performs no
rotation — the handle, path and day are unchanged and the trace
contains no hook, host-open or host-close event — whatever the year or
month of the instant is. -/
theorem C9_same_yearday_no_rotation (f : File) (t : GoTime) (d : Nat) (fl : Bool)
    (env : WriteEnv) (h0 : Handle) (hfile : f.file = some h0)
    (hday : t.yearDay = f.day) :
    (File.write f t d fl env).st.file = f.file ∧
    (File.write f t d fl env).st.path = f.path ∧
    (File.write f t d fl env).st.day = f.day ∧
    ((File.write f t d fl env).events).all
      (fun ev => !ev.isHook && !ev.isFsOpen && !ev.isFsClose) = true := by
  have hre : File.reopenIfNeeded f t env.rot = ⟨f, [], none⟩ := by
    simp [File.reopenIfNeeded, hday]
  rw [File.write.eq_def, hre]
  simp only [hfile]
  cases hsc : env.seekCurRes with
  | error e => simp [Event.isHook, Event.isFsOpen, Event.isFsClose]
  | ok pos =>
      cases hw : env.writeRes.2 with
      | some e => simp [Event.isHook, Event.isFsOpen, Event.isFsClose]
      | none =>
          cases fl <;> simp [Event.isHook, Event.isFsOpen, Event.isFsClose]

/-- An instance as if opened on day of year 5 of an earlier year (used
by the C9 witness, which writes on day of year 5 of a later year). -/
def fY : File :=
  { initFile with
    pathFormat := "log"
    day := 5
    path := "p-2024"
    file := some 1 }

/-- An all-success write environment. -/
def envWriteOk : WriteEnv := ⟨⟨none, envOpenOk⟩, Except.ok 10, (3, none), none⟩

/-- Day of year 5 in a different year (and a nominally different
month) from the year fY was opened in. -/
def tJan2025 : GoTime := ⟨2025, 1, 5⟩

/-- C9 (witness): a same-day-of-year write in a different year reuses
the handle and path without rotating. -/
theorem C9_witness :
    (File.write fY tJan2025 2 false envWriteOk).st.file = fY.file ∧
    (File.write fY tJan2025 2 false envWriteOk).st.path = fY.path ∧
    (File.write fY tJan2025 2 false envWriteOk).st.day = fY.day ∧
    ((File.write fY tJan2025 2 false envWriteOk).events).all
      (fun ev => !ev.isHook && !ev.isFsOpen && !ev.isFsClose) = true :=
  C9_same_yearday_no_rotation fY tJan2025 2 false envWriteOk 1 rfl rfl

/-- C10: Flush never rotates and changes no instance state: the state
(in particular day, path, file and lastWritePos) is returned unchanged,
and the trace is at most the single host sync call — no close, open or
hook event — whatever the current time is (Flush never consults the
clock: it takes no instant at all). -/
theorem C10_flush_frame (f : File) (e : Option GoError) :
    (File.Flush f e).st = f ∧
    ((File.Flush f e).events = [] ∨ (File.Flush f e).events = [Event.fsSync]) := by
  cases hf : f.file with
  | none => simp [File.Flush, hf]
  | some h => simp [File.Flush, hf]
